import Mathlib

/-!
Verification of the MIRO operation builder and envelope builder
(src/miroop.py) against its specification.

The embedding models the Python module shallowly:

* A fragment (an rdfmarshal instance as the module sees it) is reduced to
  the three features the module reads: its class identifier, its about
  attribute and its property count.  The about attribute is three valued:
  it can be missing from the object (reading it raises AttributeError,
  which the source catches in its verify step), it can hold the Python
  value None, or it can hold a string.
* The MIRO operation object is a record of four optional slots; the
  source stores each supplied part under its long key and indexes the
  stored value with [0].  The module doctest shows that a part supplied
  with the value None leaves the key present while the stored value is
  falsy, so the operation record keeps the distinction: the slot for
  match can be absent, present holding None, or present holding a
  fragment.  The other three slots appear in the claims only holding
  fragments and are modelled so.
* Exceptions become an explicit error type and fallible functions return
  Except.
-/

namespace Miroop

/-- The about attribute of a fragment: missing from the object, set to the
Python value None, or set to a string. -/
inductive About where
  | unset
  | vnone
  | str (s : String)
deriving DecidableEq, Repr

/-- Python truthiness of an about value: only a non-empty string is truthy. -/
def aboutTruthy : About → Bool
  | .str s => !s.isEmpty
  | _ => false

/-- Python equality between two about attribute values as read from the
objects.  An unset attribute is never read by the source after its verify
step, so the catch-all is irrelevant for reachable states. -/
def aboutEq : About → About → Bool
  | .vnone, .vnone => true
  | .str a, .str b => a == b
  | _, _ => false

/-- A graph node fragment as the module reads it: the class identifier of
the rdfmarshal instance, its about attribute, and the number of asserted
properties (the len of the instance, used at lines 303 and 350 of the
source). -/
structure Fragment where
  object_type : String
  about : About
  props : Nat
deriving DecidableEq, Repr

/-- Python 2 truthiness of a fragment object: rdfmarshal instances expose
len as the property count, so an instance with no properties is falsy. -/
def fragTruthy (f : Fragment) : Bool := f.props != 0

/-- The MIRO operation record.  matchS is the match slot: none when the
key is absent, some none when the key was supplied with the Python value
None, some (some f) when it holds a fragment. -/
structure MIRO where
  matchS : Option (Option Fragment)
  insert : Option Fragment
  replace : Option Fragment
  otherwiseInsert : Option Fragment
deriving DecidableEq, Repr

/-- Errors of the module: the two exception classes it defines plus an
error propagated from an external call. -/
inductive MiroError where
  | NotAllowedConstruct (msg : String)
  | MiroSpecException (msg : String)
  | Propagated (msg : String)
deriving DecidableEq, Repr

/-- ALLOWEDCONSTRUCTS, src/miroop.py line 67: the combinations of
properties that are allowed. -/
def ALLOWEDCONSTRUCTS : List String :=
  ["MIRO", "MIR", "MI", "MR", "O", "MIO", "MRO", "MO", "M"]

/-- The argument mapping passed to new_body.  Each of the four parts can
be supplied under its single letter key or under its long key; the match
part can additionally be supplied with the value None (some none). -/
structure Args where
  M : Option (Option Fragment)
  I : Option Fragment
  R : Option Fragment
  O : Option Fragment
  matchA : Option (Option Fragment)
  insertA : Option Fragment
  replaceA : Option Fragment
  otherwiseInsertA : Option Fragment
deriving DecidableEq, Repr

/-- Resolution of the match part: the single letter key takes precedence
over the long key (lines 92 and 95 of the source). -/
def slotM (a : Args) : Option (Option Fragment) :=
  a.M.orElse (fun _ => a.matchA)

/-- Resolution of the insert part. -/
def slotI (a : Args) : Option Fragment :=
  a.I.orElse (fun _ => a.insertA)

/-- Resolution of the replace part. -/
def slotR (a : Args) : Option Fragment :=
  a.R.orElse (fun _ => a.replaceA)

/-- Resolution of the otherwiseInsert part. -/
def slotO (a : Args) : Option Fragment :=
  a.O.orElse (fun _ => a.otherwiseInsertA)

/-- The construct string accumulated in the fixed order M, I, R, O
(lines 90 to 97 of the source). -/
def optype (a : Args) : String :=
  (if (slotM a).isSome then "M" else "")
  ++ (if (slotI a).isSome then "I" else "")
  ++ (if (slotR a).isSome then "R" else "")
  ++ (if (slotO a).isSome then "O" else "")

/-- Membership of a letter in a construct string, the test written
letter in optype in the source. -/
def hasChar (s : String) (c : Char) : Bool := s.data.contains c

/-- One step of the verify about pass (lines 70 to 78): a fragment whose
about attribute is missing gets it set to the empty string; a fragment
whose attribute exists (even holding None) is left alone, since reading
it raises no AttributeError. -/
def fixAbout (f : Fragment) : Fragment :=
  match f.about with
  | .unset => { f with about := .str "" }
  | _ => f

/-- The verify about pass over every populated part of the operation.  A
match slot holding None is passed over, as the module doctest shows. -/
def verify_about (oper : MIRO) : MIRO :=
  { matchS := oper.matchS.map (fun v => v.map fixAbout)
    insert := oper.insert.map fixAbout
    replace := oper.replace.map fixAbout
    otherwiseInsert := oper.otherwiseInsert.map fixAbout }

/-- Python equality between a fragment object and an about attribute
value, as written on line 125 of the source where the replace fragment
itself, not its about, is compared with the match about string.
rdfmarshal instances are compared with default object identity against a
value of a different type, so the comparison is always false. -/
def fragEqAbout (_f : Fragment) (_a : About) : Bool := false

/-- new_body, src/miroop.py lines 81 to 131.  Notes kept from tracing the
source: the try and except NameError around the assignment of match on
lines 113 to 116 can never take the except branch because match is
initialized to None on line 106 before the loop, so the embedding never
produces MiroSpecException; when the derivation loop finds no populated
part the match slot is assigned None and the operation is returned. -/
def new_body (args : Args) : Except MiroError MIRO :=
  let t := optype args
  if ALLOWEDCONSTRUCTS.contains t then
    let oper1 := verify_about ⟨slotM args, slotI args, slotR args, slotO args⟩
    -- lines 104 to 116: derive match when the slot is present but falsy
    let oper2 :=
      match oper1.matchS with
      | some none =>
        match oper1.insert with
        | some f =>
          { oper1 with matchS := some (some ⟨f.object_type, f.about, 0⟩)
                       insert := some { f with about := .str "" } }
        | none =>
          match oper1.replace with
          | some f =>
            { oper1 with matchS := some (some ⟨f.object_type, f.about, 0⟩)
                         replace := some { f with about := .str "" } }
          | none =>
            match oper1.otherwiseInsert with
            | some f =>
              { oper1 with matchS := some (some ⟨f.object_type, f.about, 0⟩)
                           otherwiseInsert := some { f with about := .str "" } }
            | none => { oper1 with matchS := some none }
      | _ => oper1
    -- lines 118 to 120: clear otherwiseInsert about when it equals match about
    let oper3 :=
      if hasChar t 'O' && hasChar t 'M' then
        match oper2.otherwiseInsert, oper2.matchS with
        | some g, some (some mf) =>
          if aboutEq g.about mf.about then
            { oper2 with otherwiseInsert := some { g with about := .str "" } }
          else oper2
        | _, _ => oper2
      else oper2
    -- lines 122 to 126: the replace branch, with the comparison of the
    -- fragment object against the match about string
    let oper4 :=
      if hasChar t 'M' && hasChar t 'R' then
        match oper3.replace, oper3.matchS with
        | some g, some (some mf) =>
          if aboutTruthy g.about && fragEqAbout g mf.about then
            { oper3 with replace := some { g with about := .str "" } }
          else oper3
        | _, _ => oper3
      else oper3
    -- lines 127 to 129: clear insert about whenever it is truthy
    let oper5 :=
      if hasChar t 'M' && hasChar t 'I' then
        match oper4.insert with
        | some g =>
          if aboutTruthy g.about then
            { oper4 with insert := some { g with about := .str "" } }
          else oper4
        | none => oper4
      else oper4
    .ok oper5
  else .error (.NotAllowedConstruct (t ++ " not an allowed MIRO construct"))

/-- operation, src/miroop.py lines 251 to 267: the construct string of a
built operation, one letter per key present. -/
def operation (oper : MIRO) : String :=
  (if oper.matchS.isSome then "M" else "")
  ++ (if oper.insert.isSome then "I" else "")
  ++ (if oper.replace.isSome then "R" else "")
  ++ (if oper.otherwiseInsert.isSome then "O" else "")

/-- The len of the operation object: the number of keys present. -/
def miroLen (oper : MIRO) : Nat :=
  (if oper.matchS.isSome then 1 else 0)
  + (if oper.insert.isSome then 1 else 0)
  + (if oper.replace.isSome then 1 else 0)
  + (if oper.otherwiseInsert.isSome then 1 else 0)

/-- is_move_operation, src/miroop.py lines 296 to 306: an MR operation
whose two fragments have truthy about attributes and no properties.  A
match slot holding None would make the source raise when its about is
read; built operations never reach that state and the embedding returns
false there. -/
def is_move_operation (oper : MIRO) : Bool :=
  if miroLen oper == 2 && oper.matchS.isSome && oper.replace.isSome then
    match oper.matchS, oper.replace with
    | some (some mf), some rf =>
      aboutTruthy mf.about && aboutTruthy rf.about
        && mf.props == 0 && rf.props == 0
    | _, _ => false
  else false

/-- is_rename_operation, src/miroop.py lines 355 to 367: construct
exactly MR, both fragments without properties and with truthy about
attributes. -/
def is_rename_operation (oper : MIRO) : Bool :=
  if operation oper == "MR" then
    match oper.matchS, oper.replace with
    | some (some mf), some rf =>
      mf.props == 0 && aboutTruthy mf.about
        && rf.props == 0 && aboutTruthy rf.about
    | _, _ => false
  else false

/-- about, src/miroop.py lines 311 to 325: the list of about values the
operation touches.  The match and otherwiseInsert entries are appended
whenever their letter occurs in the construct string; only the replace
entry is guarded by truthiness of its about. -/
def about (oper : MIRO) : List About :=
  let opt := operation oper
  (if hasChar opt 'M' then
    match oper.matchS with
    | some (some mf) => [mf.about]
    | _ => []
  else [])
  ++ (if hasChar opt 'R' then
    match oper.replace with
    | some rf => if aboutTruthy rf.about then [rf.about] else []
    | none => []
  else [])
  ++ (if hasChar opt 'O' then
    match oper.otherwiseInsert with
    | some g => [g.about]
    | none => []
  else [])

/-- verify, src/miroop.py lines 330 to 341.  The call to
within_restrictions on the operation delegates to the external object
model; its outcome enters as a parameter: an error models the call
raising, ok b models it returning the boolean b.  The source discards
the returned boolean. -/
def verify (oper : MIRO) (withinRestrictions : Except String Bool) :
    Except MiroError Bool :=
  match withinRestrictions with
  | .error e => .error (.Propagated e)
  | .ok _ =>
    if ALLOWEDCONSTRUCTS.contains (operation oper) then .ok true
    else .error (.NotAllowedConstruct
      ("Not an allowed MIRO construct " ++ operation oper))

/-- new_insert_body, src/miroop.py lines 170 to 185.  When the supplied
match object is falsy (None, or a fragment with no properties, since
rdfmarshal instances expose len) a match fragment of the same class as
the insert one is synthesized carrying the insert about, and the insert
about is set to the Python value None.  Reading the about attribute of
an insert fragment that has none raises AttributeError, which the
embedding propagates. -/
def new_insert_body (ins : Fragment) (mtch : Option Fragment) :
    Except MiroError MIRO :=
  let derive :=
    match mtch with
    | none => true
    | some m => !fragTruthy m
  if derive then
    match ins.about with
    | .unset => .error (.Propagated "AttributeError")
    | a =>
      new_body ⟨some (some ⟨ins.object_type, a, 0⟩),
        some { ins with about := .vnone }, none, none, none, none, none, none⟩
  else
    new_body ⟨mtch.map some, some ins, none, none, none, none, none, none⟩

-- ---------------------------------------------------------------------
-- The envelope builder

/-- A value stored in a message field: the Python value None, a string,
or a body payload of operations. -/
inductive Val where
  | vnone
  | str (s : String)
  | ops (l : List MIRO)
deriving DecidableEq, Repr

/-- Python truthiness of a field value. -/
def Val.truthy : Val → Bool
  | .vnone => false
  | .str s => !s.isEmpty
  | .ops l => !l.isEmpty

/-- A message is a keyed record; dictionary assignment replaces the value
of an existing key and otherwise appends the entry. -/
def setItem (m : List (String × Val)) (k : String) (v : Val) :
    List (String × Val) :=
  if m.any (fun p => p.1 == k) then
    m.map (fun p => if p.1 == k then (k, v) else p)
  else m ++ [(k, v)]

/-- Dictionary lookup. -/
def getItem (m : List (String × Val)) (k : String) : Option Val :=
  (m.find? (fun p => p.1 == k)).map (fun p => p.2)

/-- Dictionary deletion. -/
def delItem (m : List (String × Val)) (k : String) : List (String × Val) :=
  m.filter (fun p => p.1 != k)

/-- new_message, src/miroop.py lines 29 to 64.  The timestamp and the
generated message id are ambient effects of the source and enter as the
parameters now and uid.  The optional args dictionary is an association
list iterated in order.  Tracing the source: body is stored only when
oper is truthy; source is stored unconditionally with no check on the
sender; receiver is stored when truthy; the mid entry of args is
consumed for the message id (subscripting a missing args raises
TypeError, a missing key raises KeyError, both caught by generating a
fresh id); the remaining entries are merged, skipping the key sender
when the sender is truthy, the key receiver when the receiver is truthy,
and the key body always. -/
def new_message (oper : Val) (sender : Val) (receiver : Val)
    (args : Option (List (String × Val))) (now : String) (uid : String) :
    List (String × Val) :=
  let msg : List (String × Val) := []
  let msg := if oper.truthy then setItem msg "body" oper else msg
  let msg := setItem msg "source" sender
  let msg := if receiver.truthy then setItem msg "receiver" receiver else msg
  let msg := setItem msg "createTime" (.str now)
  let step :=
    match args with
    | none => (setItem msg "mid" (.str uid), (none : Option (List (String × Val))))
    | some l =>
      match getItem l "mid" with
      | some v => (setItem msg "mid" v, some (delItem l "mid"))
      | none => (setItem msg "mid" (.str uid), some l)
  match step with
  | (msg, none) => msg
  | (msg, some l) =>
    if l.isEmpty then msg
    else l.foldl (fun acc kv =>
      if sender.truthy && kv.1 == "sender" then acc
      else if receiver.truthy && kv.1 == "receiver" then acc
      else if kv.1 == "body" then acc
      else setItem acc kv.1 kv.2) msg

-- ---------------------------------------------------------------------
-- Helper definitions and lemmas shared by the verification theorems

/-- A fragment with about A and no properties. -/
def fragA0 : Fragment := ⟨"T", .str "A", 0⟩

/-- A fragment with about A and one property. -/
def fragA1 : Fragment := ⟨"T", .str "A", 1⟩

/-- An argument mapping supplying only the four canonical slots. -/
def mkArgs (m : Option (Option Fragment)) (i r o : Option Fragment) : Args :=
  ⟨m, i, r, o, none, none, none, none⟩

/-- Arguments of the C3 evaluation: match and replace both about A. -/
def argsC3 : Args := mkArgs (some (some fragA0)) none (some fragA0) none

/-- Arguments of the C4 evaluation: only the match key, supplied as None. -/
def argsC4 : Args := mkArgs (some none) none none none

/-- Arguments of the C9 counterexample: match about A, otherwiseInsert
about A with one property. -/
def argsC9 : Args := mkArgs (some (some fragA0)) none none (some fragA1)

/-- The operation the C9 counterexample arguments build: the
otherwiseInsert about has been cleared by the normalization. -/
def opC9 : MIRO := ⟨some (some fragA0), none, none, some ⟨"T", .str "", 1⟩⟩

/-- A legally built match only operation used as a message body. -/
def opBody : MIRO := ⟨some (some fragA0), none, none, none⟩

/-- An operation record with an illegal construct IR. -/
def opIllegalIR : MIRO := ⟨none, some fragA0, some fragA0, none⟩

/-- Arguments populating only the insert slot. -/
def argsOnlyI : Args := mkArgs none (some fragA0) none none

/-- Arguments populating match and replace with the given fragments. -/
def argsMR (mf rf : Fragment) : Args := mkArgs (some (some mf)) none (some rf) none

/-- The operation argsMR builds when both abouts are set. -/
def opMR (mf rf : Fragment) : MIRO := ⟨some (some mf), none, some rf, none⟩

/-- Arguments of the C2 witness: match supplied as None, insert about u1. -/
def argsC2w : Args := mkArgs (some none) (some ⟨"T", About.str "u1", 1⟩) none none

lemma slotM_mk (m : Option (Option Fragment)) (i r o : Option Fragment) :
    slotM (mkArgs m i r o) = m := by
  cases m <;> rfl

lemma slotI_mk (m : Option (Option Fragment)) (i r o : Option Fragment) :
    slotI (mkArgs m i r o) = i := by
  cases i <;> rfl

lemma slotR_mk (m : Option (Option Fragment)) (i r o : Option Fragment) :
    slotR (mkArgs m i r o) = r := by
  cases r <;> rfl

lemma slotO_mk (m : Option (Option Fragment)) (i r o : Option Fragment) :
    slotO (mkArgs m i r o) = o := by
  cases o <;> rfl

/-- new_body reads its argument mapping only through the four resolved
slots. -/
lemma new_body_slots (a b : Args) (hM : slotM a = slotM b)
    (hI : slotI a = slotI b) (hR : slotR a = slotR b)
    (hO : slotO a = slotO b) : new_body a = new_body b := by
  simp only [new_body, optype, hM, hI, hR, hO]

/-- Any argument mapping builds the same operation as its canonical
four slot form. -/
lemma new_body_canon (a : Args) :
    new_body a = new_body (mkArgs (slotM a) (slotI a) (slotR a) (slotO a)) := by
  exact new_body_slots a _ (by rw [slotM_mk]) (by rw [slotI_mk])
    (by rw [slotR_mk]) (by rw [slotO_mk])

lemma fixAbout_of_truthy (f : Fragment) (h : aboutTruthy f.about = true) :
    fixAbout f = f := by
  rcases f with ⟨t, a, p⟩
  cases a with
  | unset => simp [aboutTruthy] at h
  | vnone => simp [aboutTruthy] at h
  | str s => rfl

lemma fixAbout_object_type (f : Fragment) :
    (fixAbout f).object_type = f.object_type := by
  rcases f with ⟨t, a, p⟩; cases a <;> rfl

lemma fixAbout_props (f : Fragment) : (fixAbout f).props = f.props := by
  rcases f with ⟨t, a, p⟩; cases a <;> rfl

/-- An illegal construct makes new_body report it and return no
operation. -/
lemma new_body_eq_error (args : Args)
    (h : ALLOWEDCONSTRUCTS.contains (optype args) = false) :
    new_body args = .error (.NotAllowedConstruct
      (optype args ++ " not an allowed MIRO construct")) := by
  simp only [new_body, h]
  rfl

/-- A legal construct makes new_body succeed: every later step of the
builder is total. -/
lemma new_body_isOk_of_legal (args : Args)
    (h : ALLOWEDCONSTRUCTS.contains (optype args) = true) :
    (new_body args).isOk = true := by
  simp only [new_body, h]
  rfl

-- ---------------------------------------------------------------------
-- Claim theorems

/-- Claim C1: over every argument mapping, with parts supplied under the
single letter aliases or the full names, new_body succeeds exactly when
the canonical construct string, accumulated in the fixed order M, I, R,
O, is one of the 9 allowed constructs; on every other subset it reports
NotAllowedConstruct naming the offending string and returns no partial
operation. -/
theorem new_body_legal_iff (args : Args) :
    ((new_body args).isOk = true ↔
      ALLOWEDCONSTRUCTS.contains (optype args) = true)
    ∧ (ALLOWEDCONSTRUCTS.contains (optype args) = false →
        new_body args = .error (.NotAllowedConstruct
          (optype args ++ " not an allowed MIRO construct"))) := by
  cases h : ALLOWEDCONSTRUCTS.contains (optype args) with
  | false =>
    refine ⟨⟨fun hok => ?_, fun ht => absurd ht (by decide)⟩,
      fun _ => new_body_eq_error args h⟩
    rw [new_body_eq_error args h] at hok
    simp [Except.isOk, Except.toBool] at hok
  | true =>
    exact ⟨⟨fun _ => rfl, fun _ => new_body_isOk_of_legal args h⟩,
      fun hf => absurd hf (by decide)⟩

/-- Claim C1 witness: the subset with only insert populated is rejected
with NotAllowedConstruct. -/
theorem new_body_legal_iff_witness :
    new_body argsOnlyI = .error (.NotAllowedConstruct
      "I not an allowed MIRO construct") := by
  exact (new_body_legal_iff argsOnlyI).2 (by decide)

/-- Claim C2: when the match slot is supplied without a fragment and a
slot among insert, replace, otherwiseInsert is populated, new_body
derives a synthetic match fragment whose object_type and about come from
the first populated of those three slots, in that order, and clears that
slot about to the empty string; in particular new_insert_body on an
insert fragment with about u1 and no explicit match yields construct MI
with match about u1 and an empty insert about. -/
theorem derived_match_spec :
    (∀ (args : Args) (f : Fragment), slotM args = some none → slotI args = some f →
      (new_body args).map MIRO.matchS
          = .ok (some (some ⟨f.object_type, (fixAbout f).about, 0⟩)) ∧
      (new_body args).map MIRO.insert
          = .ok (some ⟨f.object_type, About.str "", f.props⟩))
    ∧ (∀ (args : Args) (f : Fragment), slotM args = some none → slotI args = none →
        slotR args = some f →
      (new_body args).map MIRO.matchS
          = .ok (some (some ⟨f.object_type, (fixAbout f).about, 0⟩)) ∧
      (new_body args).map MIRO.replace
          = .ok (some ⟨f.object_type, About.str "", f.props⟩))
    ∧ (∀ (args : Args) (f : Fragment), slotM args = some none → slotI args = none →
        slotR args = none → slotO args = some f →
      (new_body args).map MIRO.matchS
          = .ok (some (some ⟨f.object_type, (fixAbout f).about, 0⟩)) ∧
      (new_body args).map MIRO.otherwiseInsert
          = .ok (some ⟨f.object_type, About.str "", f.props⟩))
    ∧ (new_insert_body ⟨"T", .str "u1", 1⟩ none
        = .ok ⟨some (some ⟨"T", .str "u1", 0⟩), some ⟨"T", .vnone, 1⟩, none, none⟩
      ∧ operation ⟨some (some ⟨"T", .str "u1", 0⟩), some ⟨"T", .vnone, 1⟩,
          none, none⟩ = "MI") := by
  refine ⟨?_, ?_, ?_, rfl, rfl⟩
  · intro args f hM hI
    rw [new_body_canon args, hM, hI]
    cases hR : slotR args with
    | none =>
      cases hO : slotO args with
      | none =>
        constructor <;>
          simp +decide [new_body, mkArgs, slotM, slotI, slotR, slotO,
            Option.orElse, optype, verify_about, hasChar, fragEqAbout,
            fixAbout_object_type, fixAbout_props, Except.map, aboutTruthy]
      | some og =>
        cases hEq : aboutEq (fixAbout og).about (fixAbout f).about <;>
          constructor <;>
          simp +decide [new_body, mkArgs, slotM, slotI, slotR, slotO,
            Option.orElse, optype, verify_about, hasChar, fragEqAbout,
            fixAbout_object_type, fixAbout_props, Except.map, aboutTruthy, hEq]
    | some rf =>
      cases hO : slotO args with
      | none =>
        constructor <;>
          simp +decide [new_body, mkArgs, slotM, slotI, slotR, slotO,
            Option.orElse, optype, verify_about, hasChar, fragEqAbout,
            fixAbout_object_type, fixAbout_props, Except.map, aboutTruthy]
      | some og =>
        cases hEq : aboutEq (fixAbout og).about (fixAbout f).about <;>
          constructor <;>
          simp +decide [new_body, mkArgs, slotM, slotI, slotR, slotO,
            Option.orElse, optype, verify_about, hasChar, fragEqAbout,
            fixAbout_object_type, fixAbout_props, Except.map, aboutTruthy, hEq]
  · intro args f hM hI hR
    rw [new_body_canon args, hM, hI, hR]
    cases hO : slotO args with
    | none =>
      constructor <;>
        simp +decide [new_body, mkArgs, slotM, slotI, slotR, slotO,
          Option.orElse, optype, verify_about, hasChar, fragEqAbout,
          fixAbout_object_type, fixAbout_props, Except.map, aboutTruthy]
    | some og =>
      cases hEq : aboutEq (fixAbout og).about (fixAbout f).about <;>
        constructor <;>
        simp +decide [new_body, mkArgs, slotM, slotI, slotR, slotO,
          Option.orElse, optype, verify_about, hasChar, fragEqAbout,
          fixAbout_object_type, fixAbout_props, Except.map, aboutTruthy, hEq]
  · intro args f hM hI hR hO
    rw [new_body_canon args, hM, hI, hR, hO]
    cases hEq : aboutEq (About.str "") (fixAbout f).about <;>
      constructor <;>
      simp +decide [new_body, mkArgs, slotM, slotI, slotR, slotO,
        Option.orElse, optype, verify_about, hasChar, fragEqAbout,
        fixAbout_object_type, fixAbout_props, Except.map, aboutTruthy, hEq]

/-- Claim C2 witness: match supplied as None beside an insert fragment
with about u1 yields a derived match carrying u1 and a cleared insert
about. -/
theorem derived_match_spec_witness :
    (new_body argsC2w).map MIRO.matchS
        = .ok (some (some ⟨"T", About.str "u1", 0⟩)) ∧
    (new_body argsC2w).map MIRO.insert
        = .ok (some ⟨"T", About.str "", 1⟩) := by
  exact derived_match_spec.1 argsC2w ⟨"T", About.str "u1", 1⟩ rfl rfl

/-- Claim C3, evaluation at the failing input: built from match and
replace fragments that both carry about A, the operation keeps the
replace about at A even though it restates the match identity and is
truthy, because line 125 of the source compares the replace fragment
object itself, not its about, with the match about string, and that
comparison is never true. -/
theorem replace_about_retained_eval :
    new_body argsC3 = .ok ⟨some (some fragA0), none, some fragA0, none⟩ ∧
    aboutEq fragA0.about fragA0.about = true ∧
    aboutTruthy fragA0.about = true := by
  refine ⟨rfl, rfl, rfl⟩

/-- Claim C4, evaluation at the failing input: when the match key is
supplied without a fragment and no slot among insert, replace,
otherwiseInsert can provide one, new_body does not raise the missing
match specification error; it returns an operation whose match slot
holds no fragment, because the except NameError guard of the source is
dead code. -/
theorem match_none_returned_eval :
    new_body argsC4 = .ok ⟨some none, none, none, none⟩ := rfl

/-- Claim C5, evaluation at the failing input: new_message performs no
check on the sender; an empty or absent sender is stored under source
and the message is returned. -/
theorem empty_sender_accepted_eval :
    getItem (new_message (Val.ops [opBody]) (Val.str "") Val.vnone none "t0" "u0")
        "source" = some (Val.str "") ∧
    getItem (new_message (Val.ops [opBody]) Val.vnone Val.vnone none "t0" "u0")
        "source" = some Val.vnone := by
  refine ⟨rfl, rfl⟩

/-- Claim C6, evaluation at the failing input: with the established
non-empty sender s1, an extension entry under the key source overwrites
the source field with s2, since the merge loop only skips the key
sender, which is not the name of the field the sender was stored
under. -/
theorem source_overwritten_eval :
    getItem (new_message (Val.ops [opBody]) (Val.str "s1") Val.vnone
        (some [("source", Val.str "s2")]) "t0" "u0") "source"
      = some (Val.str "s2") ∧
    (Val.str "s1").truthy = true := by
  refine ⟨rfl, rfl⟩

/-- Claim C7: an operation built from match and replace fragments with
non-empty about values and a propertyless match has construct MR, and
is_move_operation and is_rename_operation are both true when the replace
fragment also carries no properties and both false when it carries at
least one. -/
theorem mr_move_rename (mf rf : Fragment)
    (hm : aboutTruthy mf.about = true) (hr : aboutTruthy rf.about = true)
    (hmp : mf.props = 0) :
    new_body (argsMR mf rf) = .ok (opMR mf rf) ∧
    operation (opMR mf rf) = "MR" ∧
    (rf.props = 0 → is_move_operation (opMR mf rf) = true ∧
      is_rename_operation (opMR mf rf) = true) ∧
    (rf.props ≠ 0 → is_move_operation (opMR mf rf) = false ∧
      is_rename_operation (opMR mf rf) = false) := by
  have hfm := fixAbout_of_truthy mf hm
  have hfr := fixAbout_of_truthy rf hr
  refine ⟨?_, rfl, fun hz => ?_, fun hnz => ?_⟩
  · simp +decide [new_body, argsMR, mkArgs, slotM, slotI, slotR, slotO,
      Option.orElse, optype, verify_about, hfm, hfr, opMR, hasChar, fragEqAbout]
  · constructor <;>
      simp +decide [is_move_operation, is_rename_operation, opMR, miroLen,
        operation, hm, hr, hmp, hz]
  · have hb : (rf.props == 0) = false := beq_eq_false_iff_ne.mpr hnz
    constructor <;>
      simp +decide [is_move_operation, is_rename_operation, opMR, miroLen,
        operation, hm, hr, hmp, hb]

/-- Claim C7 witness: equal abouts A and A with no properties give a
move and rename operation. -/
theorem mr_move_rename_witness :
    is_move_operation (opMR ⟨"T", About.str "A", 0⟩ ⟨"T", About.str "A", 0⟩)
        = true ∧
    is_rename_operation (opMR ⟨"T", About.str "A", 0⟩ ⟨"T", About.str "A", 0⟩)
        = true :=
  (mr_move_rename ⟨"T", About.str "A", 0⟩ ⟨"T", About.str "A", 0⟩
    (by decide) (by decide) rfl).2.2.1 rfl

/-- Claim C8: is_move_operation and is_rename_operation agree on every
operation record. -/
theorem move_eq_rename (oper : MIRO) :
    is_move_operation oper = is_rename_operation oper := by
  rcases oper with ⟨m, i, r, o⟩
  rcases m with _ | (_ | mf) <;> rcases i with _ | i <;> rcases r with _ | rf <;>
    rcases o with _ | o <;>
    simp +decide [is_move_operation, is_rename_operation, miroLen, operation]
  cases aboutTruthy mf.about <;> cases aboutTruthy rf.about <;>
    cases hp : (mf.props == 0) <;> cases hq : (rf.props == 0) <;> simp [hp, hq]

/-- Claim C9 counterexample: the operation built from match about A and
otherwiseInsert about A is legal, and its about list is [A, empty]: the
normalization cleared the otherwiseInsert about and the empty value
still appears in the list, so the list does not contain only non-empty
about values. -/
theorem about_contains_empty_cex :
    new_body argsC9 = .ok opC9 ∧
    about opC9 = [About.str "A", About.str ""] ∧
    (about opC9).all aboutTruthy = false := by
  refine ⟨rfl, rfl, rfl⟩

/-- Claim C9 as amended: about returns, in order, the match about
whenever the construct contains M, possibly empty, then the replace
about whenever the construct contains R and that about is non-empty,
then the otherwiseInsert about whenever the construct contains O,
possibly empty; only the replace entry is guaranteed non-empty. -/
theorem about_slotwise (oper : MIRO) :
    about oper =
      (match oper.matchS with
       | some (some mf) => [mf.about]
       | _ => []) ++
      (match oper.replace with
       | some rf => if aboutTruthy rf.about then [rf.about] else []
       | none => []) ++
      (match oper.otherwiseInsert with
       | some g => [g.about]
       | none => []) := by
  rcases oper with ⟨m, i, r, o⟩
  rcases m with _ | (_ | mf) <;> rcases i with _ | i <;> rcases r with _ | rf <;>
    rcases o with _ | o <;>
    simp +decide [about, operation, hasChar]

/-- Claim C10: verify first propagates an error raised by
within_restrictions, then returns true on a legal construct whatever
boolean the delegated check returned, and reports NotAllowedConstruct on
an illegal construct; the boolean result of the delegated check is never
turned into a failure. -/
theorem verify_ignores_bool (oper : MIRO) :
    (∀ b : Bool, ALLOWEDCONSTRUCTS.contains (operation oper) = true →
        verify oper (.ok b) = .ok true)
    ∧ (∀ e : String, verify oper (.error e) = .error (.Propagated e))
    ∧ (∀ b : Bool, ALLOWEDCONSTRUCTS.contains (operation oper) = false →
        verify oper (.ok b) = .error (.NotAllowedConstruct
          ("Not an allowed MIRO construct " ++ operation oper))) := by
  refine ⟨fun b h => ?_, fun e => rfl, fun b h => ?_⟩ <;>
    simp only [verify, h] <;> rfl

/-- Claim C10 witness: a match only operation passes verify with a false
restriction result, and an IR record is rejected. -/
theorem verify_ignores_bool_witness :
    verify opBody (.ok false) = .ok true ∧
    verify opIllegalIR (.ok false) = .error (.NotAllowedConstruct
      ("Not an allowed MIRO construct " ++ operation opIllegalIR)) :=
  ⟨(verify_ignores_bool opBody).1 false (by decide),
   (verify_ignores_bool opIllegalIR).2.2 false (by decide)⟩

end Miroop
